import Mathlib

/-!
Verification of the language-routing STT subsystem of the
Emergency-Voice-Agent repository.

The definitions below are a shallow embedding of the Python sources
src/plugins/stt/language_routing_stt.py, src/plugins/stt/whisper_stt.py and
src/plugins/stt/aibharath_conformer_stt.py.  Mutable per-session state is
passed explicitly (`RoutingState`), the behaviour of the external HTTP
services for one utterance is an explicit oracle (`World`), and each Router
invocation is the pure step function `routerStep`, which also counts the
network calls issued to the detection service and to the two transcription
backends.
-/

/-- SUPPORTED_LANGUAGES from aibharath_conformer_stt.py lines 28-31. -/
def SUPPORTED_LANGUAGES : List String :=
  ["as", "bn", "brx", "doi", "gu", "hi", "kn", "kok", "ks", "mai",
   "ml", "mni", "mr", "ne", "or", "pa", "sa", "sat", "sd", "ta", "te", "ur"]

/-- INDIAN_LANGUAGES = set(SUPPORTED_LANGUAGES), language_routing_stt.py line 28.
Only membership is ever used, so the list itself is a faithful model of the set. -/
def INDIAN_LANGUAGES : List String := SUPPORTED_LANGUAGES

/-- MIN_DETECTIONS_FOR_LOCK, language_routing_stt.py line 29. -/
def MIN_DETECTIONS_FOR_LOCK : Nat := 3

/-- RoutingState, language_routing_stt.py lines 33-39 (start_time is only
logged and is omitted).  `language_counts` models the collections.Counter:
an insertion-ordered association list from language code to vote count
(Counter preserves first-insertion order, which the lock tie-break relies on). -/
structure RoutingState where
  language_counts : List (String × Nat)
  detection_count : Nat
  locked_language : Option String
  use_aibharath : Bool
deriving Repr, DecidableEq

/-- Python truthiness of an `str | None` value: None and the empty string are
falsy.  This is the guard used by `if state.locked_language:` and
`if detected:` in language_routing_stt.py lines 167, 174 and 185. -/
def pyTruthy : Option String → Bool
  | none => false
  | some s => s ≠ ""

/-- `Counter[detected] += 1` (language_routing_stt.py line 175): bump the
count of a key in the insertion-ordered tally, appending a new key at the end. -/
def counterIncr : List (String × Nat) → String → List (String × Nat)
  | [], k => [(k, 1)]
  | (k₀, v₀) :: rest, k =>
    if k₀ = k then (k₀, v₀ + 1) :: rest else (k₀, v₀) :: counterIncr rest k

/-- `max(d.values()) if d else 0` (language_routing_stt.py lines 210-211):
the largest count in a tally, 0 for the empty tally. -/
def maxVal (xs : List (String × Nat)) : Nat :=
  xs.foldl (fun m p => Nat.max m p.2) 0

/-- `max(d, key=d.get)` (language_routing_stt.py lines 215, 218) on an
insertion-ordered tally: Python max scans left to right and replaces the
running best only on a strictly greater value, so it returns the FIRST entry
attaining the maximal count.  Returns none on the empty tally (Python would
raise ValueError there; the callers guard non-emptiness). -/
def pyMaxByCount : List (String × Nat) → Option (String × Nat)
  | [] => none
  | p :: rest => some (rest.foldl (fun best q => if best.2 < q.2 then q else best) p)

/-- STT._lock_language, language_routing_stt.py lines 200-224, as a function of
the vote tally.  Returns the locked language and the use_aibharath flag.
Returns none only for the empty tally, where the defensive third branch
(`counts.most_common(1)[0][0]`, line 221) would raise IndexError in Python;
that branch is reachable only with an empty tally because the regional /
general split partitions the tally, and every call site has just recorded a
vote, so the tally is non-empty.
`indian_counts = {k: v for k, v in counts.items() if k in INDIAN_LANGUAGES}`,
language_routing_stt.py line 206. -/
def indianPart (counts : List (String × Nat)) : List (String × Nat) :=
  counts.filter (fun p => decide (p.1 ∈ INDIAN_LANGUAGES))

/-- `non_indian_counts = {k: v for k, v in counts.items() if k not in INDIAN_LANGUAGES}`,
language_routing_stt.py line 207. -/
def generalPart (counts : List (String × Nat)) : List (String × Nat) :=
  counts.filter (fun p => decide (p.1 ∉ INDIAN_LANGUAGES))

def lockLanguage (counts : List (String × Nat)) : Option (String × Bool) :=
  if maxVal (indianPart counts) ≥ maxVal (generalPart counts) ∧ indianPart counts ≠ [] then
    (pyMaxByCount (indianPart counts)).map (fun p => (p.1, true))
  else if generalPart counts ≠ [] then
    (pyMaxByCount (generalPart counts)).map (fun p => (p.1, false))
  else
    none

/-- Apply the lock transition to a state (language_routing_stt.py line 181
calling _lock_language).  The unreachable empty-tally case leaves the state
unchanged (Python would raise IndexError; no call site can hit it). -/
def applyLock (s : RoutingState) : RoutingState :=
  match lockLanguage s.language_counts with
  | some (l, b) => { s with locked_language := some l, use_aibharath := b }
  | none => s

/-- The vote-recording block of STT._recognize_impl, language_routing_stt.py
lines 174-181: bump the tally and the detection count, then lock once the
count reaches MIN_DETECTIONS_FOR_LOCK. -/
def recordVote (s : RoutingState) (lang : String) : RoutingState :=
  if s.detection_count + 1 ≥ MIN_DETECTIONS_FOR_LOCK then
    applyLock
      { s with
        language_counts := counterIncr s.language_counts lang
        detection_count := s.detection_count + 1 }
  else
    { s with
      language_counts := counterIncr s.language_counts lang
      detection_count := s.detection_count + 1 }

/-- The routing-state part of STT.__init__, language_routing_stt.py lines
64-73: in "auto" mode the state starts all-zero; any other language_mode is
written into locked_language immediately and use_aibharath is set by
membership in INDIAN_LANGUAGES.  (The constructor also forwards the language
to the AIBharath adapter options, modelled separately by abInit /
abUpdateOptions.) -/
def initState (language_mode : String) : RoutingState :=
  if language_mode ≠ "auto" then
    { language_counts := []
      detection_count := 0
      locked_language := some language_mode
      use_aibharath := decide (language_mode ∈ INDIAN_LANGUAGES) }
  else
    { language_counts := []
      detection_count := 0
      locked_language := none
      use_aibharath := false }

/-- The initial state of an "auto" (detection) session. -/
def autoInit : RoutingState := initState "auto"

/-- One rtc.AudioFrame as consumed by the normalization loops
(language_routing_stt.py lines 93-99, whisper_stt.py lines 92-98,
aibharath_conformer_stt.py lines 111-117): its interleaved signed 16-bit PCM
samples, its sample rate and its channel count. -/
structure AudioFrame where
  sample_rate : Nat
  num_channels : Nat
  samples : List Int
deriving Repr, DecidableEq

/-- `np.frombuffer(...); pcm.reshape(-1, 2).mean(axis=1).astype(np.int16)`:
the arithmetic mean of two int16 samples, computed exactly in float64 and
truncated toward zero by astype(np.int16).  The sum of two int16 values is
within [-65536, 65534], so the truncated mean always fits in int16 and the
astype never wraps. -/
def int16TruncMean (a b : Int) : Int :=
  if a + b ≥ 0 then ((a + b).toNat / 2 : Nat) else -(((-(a + b)).toNat / 2 : Nat))

/-- Pairwise mean over an interleaved two-channel sample list, modelling
`pcm.reshape(-1, 2).mean(axis=1).astype(np.int16)`.  A two-channel frame
always has an even number of interleaved samples; on a (malformed) odd tail
reshape would raise, and this model drops the tail. -/
def pairMean : List Int → List Int
  | a :: b :: rest => int16TruncMean a b :: pairMean rest
  | _ => []

/-- The per-frame normalization step shared by all three files
(`if frame.num_channels == 2: pcm = pcm.reshape(-1, 2).mean(axis=1).astype(np.int16)`):
exactly two-channel frames are downmixed pairwise; every other channel count
passes the interleaved samples through unchanged. -/
def downmixFrame (f : AudioFrame) : List Int :=
  if f.num_channels = 2 then pairMean f.samples else f.samples

/-- `audio_chunks`: one (possibly empty) chunk is appended per frame, so the
list of chunks is empty exactly when the frame list is empty — a frame with
zero samples still contributes an empty chunk
(language_routing_stt.py lines 93-99: the append at line 99 is unconditional). -/
def audioChunks (frames : List AudioFrame) : List (List Int) :=
  frames.map downmixFrame

/-- Outcome of one HTTP POST: `failure` covers a transport error, a timeout,
a non-200 status, and an unparseable body (resp.json() raising) — every one
of these lands in the same Python code path (except-clause or non-200 branch);
`ok` is a 200 response with parsed JSON body `β`. -/
inductive HttpOutcome (β : Type) where
  | failure
  | ok (body : β)
deriving Repr, DecidableEq

/-- The "language" member of the detection JSON body: absent key, present
null, or present string.  `data.get("language", "en")` distinguishes all
three (language_routing_stt.py line 145); confidence and is_indian are read
the same way but only logged, so they are omitted. -/
inductive JsonField where
  | absent
  | jnull
  | jstr (s : String)
deriving Repr, DecidableEq

/-- The tail of STT._detect_language_voxlingua (language_routing_stt.py lines
143-155): on 200, `data.get("language", "en")` — an absent key defaults to
"en", a null value becomes Python None; on any failure the function returns
None. -/
def detectLangOfResponse : HttpOutcome JsonField → Option String
  | .failure => none
  | .ok .absent => some "en"
  | .ok .jnull => none
  | .ok (.jstr s) => some s

/-- STT._detect_language_voxlingua (language_routing_stt.py lines 87-155) as a
function of the frames and of the detection-service outcome.  Returns the
Python return value (str | None) together with the number of network calls
issued to /detect-language.  `if not audio_chunks: return None` (line 101)
fires exactly when the frame list is empty; otherwise the WAV payload is
built (resampling through rtc.AudioResampler when the rate differs from
16 kHz — the payload content is irrelevant to every property proved here)
and exactly one POST is issued. -/
def detectLanguage (frames : List AudioFrame) (resp : HttpOutcome JsonField) :
    Option String × Nat :=
  if frames.isEmpty then (none, 0) else (detectLangOfResponse resp, 1)

/-- JSON body of the Whisper /transcribe response; `data.get("text", "")`
defaults an absent field to "" (whisper_stt.py line 155).  The language field
is only echoed into the result metadata and is omitted. -/
structure WhisperJson where
  text : Option String
deriving Repr, DecidableEq

/-- JSON body of the AIBharath /transcribe response
(aibharath_conformer_stt.py lines 175-176). -/
structure ABJson where
  text : Option String
  translated_text : Option String
deriving Repr, DecidableEq

/-- The text produced by WhisperSTT._recognize_impl for one backend outcome
(whisper_stt.py lines 142-165): a 200 response yields `data.get("text", "")`;
a non-200 status, transport error or timeout is caught INSIDE the adapter and
yields the empty string — the adapter returns a normal empty-text event and
never raises a provider failure to its caller. -/
def whisperText : HttpOutcome WhisperJson → String
  | .failure => ""
  | .ok b => b.text.getD ""

/-- WhisperSTT._recognize_impl (whisper_stt.py lines 79-171) as a function of
the frames and the backend outcome: (result text, number of POSTs to the
whisper /transcribe endpoint).  With no frames the adapter returns an
empty-text event before touching the network (lines 100-105). -/
def whisperRecognize (frames : List AudioFrame) (resp : HttpOutcome WhisperJson) :
    String × Nat :=
  if frames.isEmpty then ("", 0) else (whisperText resp, 1)

/-- The text produced by AIBharathSTT._recognize_impl for one backend outcome
(aibharath_conformer_stt.py lines 161-198): on 200, the translated text is
preferred when translation is enabled and the translated string is truthy
(`if self._opts.translate_to_english and translated_text:` — None and ""
are both falsy); failures are caught inside the adapter and yield "". -/
def aibharathText (tte : Bool) : HttpOutcome ABJson → String
  | .failure => ""
  | .ok b =>
    let translated := b.translated_text.getD ""
    if tte ∧ translated ≠ "" then translated else b.text.getD ""

/-- AIBharathSTT._recognize_impl (aibharath_conformer_stt.py lines 98-204) as
a function of frames and backend outcome: (result text, number of POSTs to
the AIBharath /transcribe endpoint).  Empty frame list short-circuits
(lines 119-124). -/
def aibharathRecognize (tte : Bool) (frames : List AudioFrame)
    (resp : HttpOutcome ABJson) : String × Nat :=
  if frames.isEmpty then ("", 0) else (aibharathText tte resp, 1)

/-- The behaviour of the three external HTTP endpoints for one utterance:
what the detection service, the Whisper backend and the AIBharath backend
would answer if called. -/
structure World where
  detectResponse : HttpOutcome JsonField
  whisperResponse : HttpOutcome WhisperJson
  aibharathResponse : HttpOutcome ABJson
deriving Repr, DecidableEq

/-- Result of one Router invocation: the successor routing state, the
transcript text handed back to the caller, and how many network calls were
issued to /detect-language, to the Whisper backend and to the AIBharath
backend for this utterance. -/
structure StepResult where
  state : RoutingState
  text : String
  detectCalls : Nat
  whisperCalls : Nat
  aibharathCalls : Nat
deriving Repr, DecidableEq

/-- STT._transcribe_with_locked (language_routing_stt.py lines 232-239):
dispatch by use_aibharath; the state is not touched and no detection call is
made.  Neither adapter call is wrapped in a try here, and neither adapter
raises on a provider failure (the failure is swallowed inside the adapter,
see whisperText / aibharathText). -/
def lockedDispatch (tte : Bool) (s : RoutingState) (frames : List AudioFrame)
    (w : World) : StepResult :=
  if s.use_aibharath then
    let r := aibharathRecognize tte frames w.aibharathResponse
    ⟨s, r.1, 0, 0, r.2⟩
  else
    let r := whisperRecognize frames w.whisperResponse
    ⟨s, r.1, 0, r.2, 0⟩

/-- `is_indian = detected in INDIAN_LANGUAGES if detected else False`
(language_routing_stt.py line 172).  For a falsy `detected` Python yields
False; for a truthy string the membership test decides.  The empty string is
not a member of INDIAN_LANGUAGES, so the membership test alone is
extensionally identical. -/
def liveIsIndian (detected : Option String) : Bool :=
  match detected with
  | some l => decide (l ∈ INDIAN_LANGUAGES)
  | none => false

/-- The state written by the vote phase of one unlocked Router invocation
(language_routing_stt.py lines 174-181): a truthy detected language records a
vote (possibly locking); a detection failure (None) or a falsy language
leaves the state untouched.  The dispatch phase never writes the state. -/
def voteUpdate (s : RoutingState) (detected : Option String) : RoutingState :=
  match detected with
  | some l => if l ≠ "" then recordVote s l else s
  | none => s

/-- STT._recognize_impl of the Router (language_routing_stt.py lines 157-198)
for one utterance.  `tte` is the translate_to_english flag the Router
constructor passed to the AIBharath adapter.

Branch map against the source:
* line 167 `if state.locked_language:` — Python truthiness (pyTruthy);
* line 171 detection; line 172 `is_indian`; lines 174-181 vote + lock
  (`if detected:` is again string truthiness);
* line 185 re-check of the (possibly just-set) lock;
* lines 187-191 live routing to AIBharath for a regional detection (the
  update_options(language=detected) call touches only the adapter options,
  modelled by abUpdateOptions below, never the RoutingState);
* lines 192-198 Whisper for non-regional / failed detection.  The source
  wraps this last call in try/except with an AIBharath fallback; a transport
  error, timeout or non-200 status is caught inside
  WhisperSTT._recognize_impl itself (whisper_stt.py lines 142-165) and
  returns an empty-text event, so no provider failure ever raises and the
  except branch is not taken for any outcome representable in `World`. -/
def routerStep (tte : Bool) (s : RoutingState) (frames : List AudioFrame)
    (w : World) : StepResult :=
  if pyTruthy s.locked_language then
    lockedDispatch tte s frames w
  else
    if pyTruthy (voteUpdate s (detectLanguage frames w.detectResponse).1).locked_language then
      { lockedDispatch tte (voteUpdate s (detectLanguage frames w.detectResponse).1) frames w
          with detectCalls := (detectLanguage frames w.detectResponse).2 }
    else if liveIsIndian (detectLanguage frames w.detectResponse).1 then
      ⟨voteUpdate s (detectLanguage frames w.detectResponse).1,
        (aibharathRecognize tte frames w.aibharathResponse).1,
        (detectLanguage frames w.detectResponse).2, 0,
        (aibharathRecognize tte frames w.aibharathResponse).2⟩
    else
      ⟨voteUpdate s (detectLanguage frames w.detectResponse).1,
        (whisperRecognize frames w.whisperResponse).1,
        (detectLanguage frames w.detectResponse).2,
        (whisperRecognize frames w.whisperResponse).2, 0⟩

/-- The states a session can pass through: the reflexive-transitive closure of
`routerStep` on the state component, from a given initial state. -/
inductive ReachableFrom (s₀ : RoutingState) : RoutingState → Prop where
  | refl : ReachableFrom s₀ s₀
  | step (tte : Bool) (frames : List AudioFrame) (w : World) {s : RoutingState} :
      ReachableFrom s₀ s → ReachableFrom s₀ (routerStep tte s frames w).state

/-- Options of the AIBharath adapter, aibharath_conformer_stt.py lines 36-42. -/
structure ABSTTOptions where
  base_url : String
  language : String
  decode_type : String
  translate_to_english : Bool
deriving Repr, DecidableEq

/-- AIBharathSTT.__init__ (aibharath_conformer_stt.py lines 47-64):
`language if language in SUPPORTED_LANGUAGES else "hi"`. -/
def abInit (base_url language decode_type : String) (tte : Bool) : ABSTTOptions :=
  { base_url := base_url
    language := if language ∈ SUPPORTED_LANGUAGES then language else "hi"
    decode_type := decode_type
    translate_to_english := tte }

/-- AIBharathSTT.update_options (aibharath_conformer_stt.py lines 74-86),
first if-block (lines 81-83): `if language and language in SUPPORTED_LANGUAGES:`
— a None, empty or unsupported language argument leaves the language field
unchanged (Python truthiness combined with the membership test). -/
def abApplyLanguage (o : ABSTTOptions) : Option String → ABSTTOptions
  | some l => if l ≠ "" ∧ l ∈ SUPPORTED_LANGUAGES then { o with language := l } else o
  | none => o

/-- The second if-block of update_options (lines 84-86). -/
def abApplyTte (o : ABSTTOptions) : Option Bool → ABSTTOptions
  | some b => { o with translate_to_english := b }
  | none => o

def abUpdateOptions (o : ABSTTOptions) (language : Option String)
    (tte : Option Bool) : ABSTTOptions :=
  abApplyTte (abApplyLanguage o language) tte

/-- The language field sent with a /transcribe request
(aibharath_conformer_stt.py lines 105, 164): the per-call override when one
is given, else the configured option.  Every call site in this repository
passes NOT_GIVEN (modelled as none). -/
def abRequestLanguage (o : ABSTTOptions) (language : Option String) : String :=
  language.getD o.language

/-! ### Helper lemmas about tallies and the Python max-by-count -/

theorem counterIncr_ne_nil (xs : List (String × Nat)) (k : String) :
    counterIncr xs k ≠ [] := by
  cases xs with
  | nil => simp [counterIncr]
  | cons p rest =>
    cases p with
    | mk k₀ v₀ =>
      unfold counterIncr
      split <;> simp

theorem counterIncr_keys {xs : List (String × Nat)} {k : String} {p : String × Nat}
    (h : p ∈ counterIncr xs k) : p.1 = k ∨ ∃ v, (p.1, v) ∈ xs := by
  induction xs with
  | nil =>
    simp [counterIncr] at h
    left
    rw [h]
  | cons q rest ih =>
    cases q with
    | mk k₀ v₀ =>
      by_cases hk : k₀ = k
      · rw [show counterIncr ((k₀, v₀) :: rest) k = (k₀, v₀ + 1) :: rest by
          unfold counterIncr; rw [if_pos hk]] at h
        rcases List.mem_cons.mp h with h₁ | h₁
        · left; rw [h₁]; exact hk
        · right; exact ⟨p.2, List.mem_cons_of_mem _ h₁⟩
      · rw [show counterIncr ((k₀, v₀) :: rest) k = (k₀, v₀) :: counterIncr rest k by
          simp only [counterIncr, if_neg hk]] at h
        rcases List.mem_cons.mp h with h₁ | h₁
        · right; exact ⟨v₀, by rw [h₁]; exact List.mem_cons_self _ _⟩
        · rcases ih h₁ with h₂ | ⟨v, h₂⟩
          · left; exact h₂
          · right; exact ⟨v, List.mem_cons_of_mem _ h₂⟩

theorem foldl_max_acc (xs : List (String × Nat)) (a : Nat) :
    xs.foldl (fun m p => Nat.max m p.2) a = Nat.max a (maxVal xs) := by
  induction xs generalizing a with
  | nil =>
    show a = Nat.max a (maxVal [])
    show a = Nat.max a 0
    simp only [Nat.max_def]; split_ifs <;> omega
  | cons p rest ih =>
    show List.foldl _ (Nat.max a p.2) rest = _
    rw [ih]
    have h₂ : maxVal (p :: rest) = Nat.max p.2 (maxVal rest) := by
      show List.foldl _ (Nat.max 0 p.2) rest = _
      rw [ih]
      simp only [Nat.max_def]; split_ifs <;> omega
    rw [h₂]
    simp only [Nat.max_def]; split_ifs <;> omega

theorem maxVal_cons (p : String × Nat) (xs : List (String × Nat)) :
    maxVal (p :: xs) = Nat.max p.2 (maxVal xs) := by
  show List.foldl _ (Nat.max 0 p.2) xs = _
  rw [foldl_max_acc]
  simp only [Nat.max_def]; split_ifs <;> omega

theorem le_maxVal_of_mem {xs : List (String × Nat)} {p : String × Nat}
    (h : p ∈ xs) : p.2 ≤ maxVal xs := by
  induction xs with
  | nil => simp at h
  | cons q rest ih =>
    rw [maxVal_cons]
    rcases List.mem_cons.mp h with h₁ | h₁
    · rw [h₁]; exact Nat.le_max_left _ _
    · exact Nat.le_trans (ih h₁) (Nat.le_max_right _ _)

theorem maxVal_le {xs : List (String × Nat)} {m : Nat}
    (h : ∀ p ∈ xs, p.2 ≤ m) : maxVal xs ≤ m := by
  induction xs with
  | nil => show (0 : Nat) ≤ m; omega
  | cons q rest ih =>
    rw [maxVal_cons]
    exact Nat.max_le.mpr
      ⟨h q (List.mem_cons_self _ _), ih fun p hp => h p (List.mem_cons_of_mem _ hp)⟩

/-- The tie-break characterization of the first entry attaining the maximal
count in an insertion-ordered tally: some occurrence of `l` carries the
maximal count, and every entry strictly before it has a strictly smaller
count. -/
def FirstMaxKey (xs : List (String × Nat)) (l : String) : Prop :=
  ∃ pre v suf, xs = pre ++ (l, v) :: suf ∧ v = maxVal xs ∧ ∀ p ∈ pre, p.2 < v

theorem pyFold_spec (rest : List (String × Nat)) (best : String × Nat) :
    (rest.foldl (fun b q => if b.2 < q.2 then q else b) best = best ∧ maxVal rest ≤ best.2) ∨
    (∃ pre suf,
      rest = pre ++ (rest.foldl (fun b q => if b.2 < q.2 then q else b) best) :: suf ∧
      best.2 < (rest.foldl (fun b q => if b.2 < q.2 then q else b) best).2 ∧
      (∀ p ∈ pre, p.2 < (rest.foldl (fun b q => if b.2 < q.2 then q else b) best).2) ∧
      maxVal suf ≤ (rest.foldl (fun b q => if b.2 < q.2 then q else b) best).2) := by
  induction rest generalizing best with
  | nil =>
    refine Or.inl ⟨rfl, ?_⟩
    show (0 : Nat) ≤ best.2
    omega
  | cons q rest ih =>
    by_cases h : best.2 < q.2
    · have hstep : List.foldl (fun b q => if b.2 < q.2 then q else b) best (q :: rest)
          = List.foldl (fun b q => if b.2 < q.2 then q else b) q rest := by
        rw [List.foldl_cons, if_pos h]
      rw [hstep]
      rcases ih q with ⟨hr, hmax⟩ | ⟨pre, suf, hdec, hlt, hpre, hsuf⟩
      · rw [hr]
        refine Or.inr ⟨[], rest, rfl, h, ?_, hmax⟩
        intro p hp; simp at hp
      · refine Or.inr ⟨q :: pre, suf, ?_, Nat.lt_trans h hlt, ?_, hsuf⟩
        · rw [List.cons_append]; exact congrArg _ hdec
        · intro p hp
          rcases List.mem_cons.mp hp with h₁ | h₁
          · rw [h₁]; exact hlt
          · exact hpre p h₁
    · have hstep : List.foldl (fun b q => if b.2 < q.2 then q else b) best (q :: rest)
          = List.foldl (fun b q => if b.2 < q.2 then q else b) best rest := by
        rw [List.foldl_cons, if_neg h]
      rw [hstep]
      rcases ih best with ⟨hr, hmax⟩ | ⟨pre, suf, hdec, hlt, hpre, hsuf⟩
      · refine Or.inl ⟨hr, ?_⟩
        rw [maxVal_cons]
        exact Nat.max_le.mpr ⟨Nat.le_of_not_lt h, hmax⟩
      · refine Or.inr ⟨q :: pre, suf, ?_, hlt, ?_, hsuf⟩
        · rw [List.cons_append]; exact congrArg _ hdec
        · intro p hp
          rcases List.mem_cons.mp hp with h₁ | h₁
          · rw [h₁]; exact Nat.lt_of_le_of_lt (Nat.le_of_not_lt h) hlt
          · exact hpre p h₁

theorem pyMaxByCount_firstMax {xs : List (String × Nat)} {r : String × Nat}
    (h : pyMaxByCount xs = some r) : FirstMaxKey xs r.1 := by
  cases xs with
  | nil => simp [pyMaxByCount] at h
  | cons p rest =>
    have hr : rest.foldl (fun b q => if b.2 < q.2 then q else b) p = r := by
      simpa [pyMaxByCount] using h
    rcases pyFold_spec rest p with ⟨h₁, hmax⟩ | ⟨pre, suf, hdec, hlt, hpre, hsuf⟩
    · rw [hr] at h₁
      refine ⟨[], r.2, rest, ?_, ?_, ?_⟩
      · simp [← h₁]
      · rw [maxVal_cons, ← h₁]
        have hle : maxVal rest ≤ r.2 := by rw [h₁]; exact hmax
        exact (Nat.max_eq_left hle).symm
      · intro p' hp'; simp at hp'
    · rw [hr] at hdec hlt hpre hsuf
      refine ⟨p :: pre, r.2, suf, ?_, ?_, ?_⟩
      · rw [List.cons_append, hdec]
      · have hmem : r ∈ p :: rest := by
          rw [hdec]
          exact List.mem_cons_of_mem _ (List.mem_append_right _ (List.mem_cons_self _ _))
        have hle : maxVal (p :: rest) ≤ r.2 := by
          refine maxVal_le ?_
          intro q hq
          rcases List.mem_cons.mp hq with h₁ | h₁
          · rw [h₁]; exact Nat.le_of_lt hlt
          · rw [hdec] at h₁
            rcases List.mem_append.mp h₁ with h₂ | h₂
            · exact Nat.le_of_lt (hpre q h₂)
            · rcases List.mem_cons.mp h₂ with h₃ | h₃
              · rw [h₃]
              · exact Nat.le_trans (le_maxVal_of_mem h₃) hsuf
        exact Nat.le_antisymm (le_maxVal_of_mem hmem) hle
      · intro q hq
        rcases List.mem_cons.mp hq with h₁ | h₁
        · rw [h₁]; exact hlt
        · exact hpre q h₁

theorem firstMaxKey_mem {xs : List (String × Nat)} {l : String}
    (h : FirstMaxKey xs l) : ∃ v, (l, v) ∈ xs := by
  rcases h with ⟨pre, v, suf, hdec, _, _⟩
  exact ⟨v, by rw [hdec]; exact List.mem_append_right _ (List.mem_cons_self _ _)⟩

theorem pyMaxByCount_isSome {xs : List (String × Nat)} (h : xs ≠ []) :
    ∃ r, pyMaxByCount xs = some r := by
  cases xs with
  | nil => exact absurd rfl h
  | cons p rest => exact ⟨_, rfl⟩

/-! ### Lemmas about the lock resolution and the step function -/

theorem lockLanguage_key {counts : List (String × Nat)} {l : String} {b : Bool}
    (h : lockLanguage counts = some (l, b)) : ∃ v, (l, v) ∈ counts := by
  unfold lockLanguage at h
  split at h
  · rcases Option.map_eq_some'.mp h with ⟨r, hr, hrb⟩
    rcases firstMaxKey_mem (pyMaxByCount_firstMax hr) with ⟨v, hv⟩
    have : r.1 = l := congrArg Prod.fst hrb
    rw [this] at hv
    exact ⟨v, List.mem_of_mem_filter hv⟩
  · split at h
    · rcases Option.map_eq_some'.mp h with ⟨r, hr, hrb⟩
      rcases firstMaxKey_mem (pyMaxByCount_firstMax hr) with ⟨v, hv⟩
      have : r.1 = l := congrArg Prod.fst hrb
      rw [this] at hv
      exact ⟨v, List.mem_of_mem_filter hv⟩
    · exact absurd h (by simp)

theorem lockLanguage_isSome {counts : List (String × Nat)} (h : counts ≠ []) :
    ∃ l b, lockLanguage counts = some (l, b) := by
  unfold lockLanguage
  split
  · rename_i hcond
    rcases pyMaxByCount_isSome hcond.2 with ⟨r, hr⟩
    exact ⟨r.1, true, by rw [hr]; rfl⟩
  · rename_i hcond
    split
    · rename_i hne
      rcases pyMaxByCount_isSome hne with ⟨r, hr⟩
      exact ⟨r.1, false, by rw [hr]; rfl⟩
    · rename_i hnil
      exfalso
      push_neg at hnil
      cases counts with
      | nil => exact h rfl
      | cons p rest =>
        by_cases hp : p.1 ∈ INDIAN_LANGUAGES
        · have hmem : p ∈ indianPart (p :: rest) :=
            List.mem_filter.mpr ⟨List.mem_cons_self _ _, by simp [hp]⟩
          have hind : indianPart (p :: rest) ≠ [] :=
            List.ne_nil_of_mem hmem
          have hz : maxVal (generalPart (p :: rest)) = 0 := by
            rw [hnil]; rfl
          exact hcond ⟨by rw [hz]; exact Nat.zero_le _, hind⟩
        · have hmem : p ∈ generalPart (p :: rest) :=
            List.mem_filter.mpr ⟨List.mem_cons_self _ _, by simp [hp]⟩
          exact List.ne_nil_of_mem hmem hnil

theorem lockedDispatch_state (tte : Bool) (s : RoutingState) (frames : List AudioFrame)
    (w : World) : (lockedDispatch tte s frames w).state = s := by
  unfold lockedDispatch
  split <;> rfl

theorem lockedDispatch_detectCalls (tte : Bool) (s : RoutingState)
    (frames : List AudioFrame) (w : World) :
    (lockedDispatch tte s frames w).detectCalls = 0 := by
  unfold lockedDispatch
  split <;> rfl

theorem routerStep_locked {s : RoutingState} (h : pyTruthy s.locked_language = true)
    (tte : Bool) (frames : List AudioFrame) (w : World) :
    routerStep tte s frames w = lockedDispatch tte s frames w := by
  unfold routerStep
  rw [if_pos h]

theorem routerStep_state_unlocked {s : RoutingState}
    (h : pyTruthy s.locked_language = false) (tte : Bool) (frames : List AudioFrame)
    (w : World) :
    (routerStep tte s frames w).state =
      voteUpdate s (detectLanguage frames w.detectResponse).1 := by
  unfold routerStep
  rw [if_neg (by rw [h]; exact Bool.false_ne_true)]
  split
  · simp only [lockedDispatch_state]
  · split <;> rfl

theorem routerStep_detectCalls_unlocked {s : RoutingState}
    (h : pyTruthy s.locked_language = false) (tte : Bool) (frames : List AudioFrame)
    (w : World) :
    (routerStep tte s frames w).detectCalls = (detectLanguage frames w.detectResponse).2 := by
  unfold routerStep
  rw [if_neg (by rw [h]; exact Bool.false_ne_true)]
  split
  · rfl
  · split <;> rfl

/-- The session invariant of auto mode: before quorum the session is unlocked
with fewer than MIN_DETECTIONS_FOR_LOCK detections and every tallied key is a
truthy (non-empty) language code; once locked, the language is truthy and the
detection count froze at exactly 3. -/
def SessionInv (s : RoutingState) : Prop :=
  (s.locked_language = none ∧ s.detection_count < MIN_DETECTIONS_FOR_LOCK ∧
    ∀ p ∈ s.language_counts, p.1 ≠ "") ∨
  (∃ l, s.locked_language = some l ∧ l ≠ "" ∧ s.detection_count = MIN_DETECTIONS_FOR_LOCK)

theorem inv_autoInit : SessionInv autoInit := by
  left
  refine ⟨rfl, by decide, ?_⟩
  intro p hp
  simp [autoInit, initState] at hp

theorem applyLock_eq {s : RoutingState} {l : String} {b : Bool}
    (h : lockLanguage s.language_counts = some (l, b)) :
    applyLock s = { s with locked_language := some l, use_aibharath := b } := by
  unfold applyLock
  rw [h]

theorem inv_step {s : RoutingState} (hs : SessionInv s) (tte : Bool)
    (frames : List AudioFrame) (w : World) :
    SessionInv (routerStep tte s frames w).state := by
  rcases hs with ⟨hnone, hlt, hkeys⟩ | ⟨l, hsome, hne, hcnt⟩
  · have hfalse : pyTruthy s.locked_language = false := by rw [hnone]; rfl
    rw [routerStep_state_unlocked hfalse]
    rcases hdet : (detectLanguage frames w.detectResponse).1 with _ | l
    · exact Or.inl ⟨hnone, hlt, hkeys⟩
    · show SessionInv (if l ≠ "" then recordVote s l else s)
      by_cases hl : l = ""
      · rw [if_neg (by rw [hl]; simp)]
        exact Or.inl ⟨hnone, hlt, hkeys⟩
      · rw [if_pos hl]
        unfold recordVote
        by_cases hq : s.detection_count + 1 ≥ MIN_DETECTIONS_FOR_LOCK
        · rw [if_pos hq]
          rcases lockLanguage_isSome (counterIncr_ne_nil s.language_counts l)
            with ⟨l', b, hlock⟩
          rw [applyLock_eq hlock]
          right
          refine ⟨l', rfl, ?_, ?_⟩
          · rcases lockLanguage_key hlock with ⟨v, hv⟩
            rcases counterIncr_keys hv with h₁ | ⟨v', hv'⟩
            · rw [show l' = l from h₁]; exact hl
            · exact hkeys ((l', v).1, v') hv'
          · show s.detection_count + 1 = MIN_DETECTIONS_FOR_LOCK
            have h3 : MIN_DETECTIONS_FOR_LOCK = 3 := rfl
            omega
        · rw [if_neg hq]
          left
          refine ⟨hnone, ?_, ?_⟩
          · show s.detection_count + 1 < MIN_DETECTIONS_FOR_LOCK
            omega
          · intro p hp
            rcases counterIncr_keys hp with h₁ | ⟨v', hv'⟩
            · rw [h₁]; exact hl
            · exact hkeys (p.1, v') hv'
  · have htrue : pyTruthy s.locked_language = true := by
      rw [hsome]; simp [pyTruthy, hne]
    rw [routerStep_locked htrue, lockedDispatch_state]
    exact Or.inr ⟨l, hsome, hne, hcnt⟩

theorem inv_reachable {s : RoutingState} (h : ReachableFrom autoInit s) : SessionInv s := by
  induction h with
  | refl => exact inv_autoInit
  | step tte frames w hr ih => exact inv_step ih tte frames w

/-! ### Per-branch facts about adapter calls -/

theorem whisperRecognize_text_failure (frames : List AudioFrame) :
    (whisperRecognize frames .failure).1 = "" := by
  unfold whisperRecognize
  split <;> rfl

theorem whisperRecognize_calls_le (frames : List AudioFrame)
    (resp : HttpOutcome WhisperJson) : (whisperRecognize frames resp).2 ≤ 1 := by
  unfold whisperRecognize
  split <;> simp

theorem aibharathRecognize_text_failure (tte : Bool) (frames : List AudioFrame) :
    (aibharathRecognize tte frames .failure).1 = "" := by
  unfold aibharathRecognize
  split <;> rfl

theorem aibharathRecognize_calls_le (tte : Bool) (frames : List AudioFrame)
    (resp : HttpOutcome ABJson) : (aibharathRecognize tte frames resp).2 ≤ 1 := by
  unfold aibharathRecognize
  split <;> simp

theorem lockedDispatch_calls_le (tte : Bool) (s : RoutingState)
    (frames : List AudioFrame) (w : World) :
    (lockedDispatch tte s frames w).whisperCalls
      + (lockedDispatch tte s frames w).aibharathCalls ≤ 1 := by
  unfold lockedDispatch
  split
  · show 0 + (aibharathRecognize tte frames w.aibharathResponse).2 ≤ 1
    have h := aibharathRecognize_calls_le tte frames w.aibharathResponse
    omega
  · show (whisperRecognize frames w.whisperResponse).2 + 0 ≤ 1
    have h := whisperRecognize_calls_le frames w.whisperResponse
    omega

theorem lockedDispatch_text_bothfail (tte : Bool) (s : RoutingState)
    (frames : List AudioFrame) (w : World) (hw : w.whisperResponse = .failure)
    (ha : w.aibharathResponse = .failure) :
    (lockedDispatch tte s frames w).text = "" := by
  unfold lockedDispatch
  split
  · show (aibharathRecognize tte frames w.aibharathResponse).1 = ""
    rw [ha]
    exact aibharathRecognize_text_failure tte frames
  · show (whisperRecognize frames w.whisperResponse).1 = ""
    rw [hw]
    exact whisperRecognize_text_failure frames

theorem routerStep_calls_le (tte : Bool) (s : RoutingState)
    (frames : List AudioFrame) (w : World) :
    (routerStep tte s frames w).whisperCalls
      + (routerStep tte s frames w).aibharathCalls ≤ 1 := by
  unfold routerStep
  split
  · exact lockedDispatch_calls_le tte s frames w
  · split
    · show (lockedDispatch tte (voteUpdate s (detectLanguage frames w.detectResponse).1)
          frames w).whisperCalls
        + (lockedDispatch tte (voteUpdate s (detectLanguage frames w.detectResponse).1)
          frames w).aibharathCalls ≤ 1
      exact lockedDispatch_calls_le tte _ frames w
    · split
      · show 0 + (aibharathRecognize tte frames w.aibharathResponse).2 ≤ 1
        have h := aibharathRecognize_calls_le tte frames w.aibharathResponse
        omega
      · show (whisperRecognize frames w.whisperResponse).2 + 0 ≤ 1
        have h := whisperRecognize_calls_le frames w.whisperResponse
        omega

theorem routerStep_text_bothfail (tte : Bool) (s : RoutingState)
    (frames : List AudioFrame) (w : World) (hw : w.whisperResponse = .failure)
    (ha : w.aibharathResponse = .failure) :
    (routerStep tte s frames w).text = "" := by
  unfold routerStep
  split
  · exact lockedDispatch_text_bothfail tte s frames w hw ha
  · split
    · show (lockedDispatch tte (voteUpdate s (detectLanguage frames w.detectResponse).1)
          frames w).text = ""
      exact lockedDispatch_text_bothfail tte _ frames w hw ha
    · split
      · show (aibharathRecognize tte frames w.aibharathResponse).1 = ""
        rw [ha]
        exact aibharathRecognize_text_failure tte frames
      · show (whisperRecognize frames w.whisperResponse).1 = ""
        rw [hw]
        exact whisperRecognize_text_failure frames

/-! ### Claim C1 -/

/-- C1, counterexample.  A session locked to the regional backend
(fixed mode "hi", exactly the state written by STT.__init__ lines 67-73)
receives an utterance on which the AIBharath backend has a provider failure
while the sibling Whisper backend would have answered successfully.  The
claim asserts the Router then invokes the other adapter exactly once for
that utterance; in fact the failure is swallowed inside the AIBharath
adapter, the Whisper adapter is invoked zero times, and the Router returns
the empty transcript directly. -/
theorem C1_counterexample :
    (routerStep true (initState "hi") [⟨16000, 1, [1]⟩]
      ⟨HttpOutcome.failure, HttpOutcome.ok ⟨some "sibling transcript"⟩,
        HttpOutcome.failure⟩).whisperCalls = 0 ∧
    (routerStep true (initState "hi") [⟨16000, 1, [1]⟩]
      ⟨HttpOutcome.failure, HttpOutcome.ok ⟨some "sibling transcript"⟩,
        HttpOutcome.failure⟩).aibharathCalls = 1 ∧
    (routerStep true (initState "hi") [⟨16000, 1, [1]⟩]
      ⟨HttpOutcome.failure, HttpOutcome.ok ⟨some "sibling transcript"⟩,
        HttpOutcome.failure⟩).text = "" := by
  decide

/-- C1 (amended): a provider failure (transport error, non-success status or
timeout) of a transcription backend is caught inside the adapter that called
it, which returns an empty-text result; the Router never retries against the
sibling adapter — in every state and for every utterance at most one
/transcribe call is issued in total — and when the backend(s) that were
consulted fail the Router returns an empty-text TranscriptionResult rather
than raising an exception (here stated with both backends failing, covering
whichever adapter was selected). -/
theorem C1_provider_failure_swallowed (tte : Bool) (s : RoutingState)
    (frames : List AudioFrame) (w : World) (hw : w.whisperResponse = .failure)
    (ha : w.aibharathResponse = .failure) :
    (routerStep tte s frames w).text = "" ∧
    (routerStep tte s frames w).whisperCalls
      + (routerStep tte s frames w).aibharathCalls ≤ 1 :=
  ⟨routerStep_text_bothfail tte s frames w hw ha, routerStep_calls_le tte s frames w⟩

/-- C1 witness: the amended theorem applied to a concrete locked-regional
session, a one-sample utterance and a world in which both backends fail. -/
theorem C1_provider_failure_swallowed_witness :
    (routerStep true (initState "hi") [⟨16000, 1, [1]⟩]
      ⟨HttpOutcome.ok (JsonField.jstr "hi"), HttpOutcome.failure,
        HttpOutcome.failure⟩).text = "" ∧
    (routerStep true (initState "hi") [⟨16000, 1, [1]⟩]
      ⟨HttpOutcome.ok (JsonField.jstr "hi"), HttpOutcome.failure,
        HttpOutcome.failure⟩).whisperCalls
      + (routerStep true (initState "hi") [⟨16000, 1, [1]⟩]
        ⟨HttpOutcome.ok (JsonField.jstr "hi"), HttpOutcome.failure,
          HttpOutcome.failure⟩).aibharathCalls ≤ 1 :=
  C1_provider_failure_swallowed true (initState "hi") [⟨16000, 1, [1]⟩]
    ⟨HttpOutcome.ok (JsonField.jstr "hi"), HttpOutcome.failure, HttpOutcome.failure⟩
    rfl rfl

/-! ### Claim C2 -/

/-- C2: in auto mode, for every reachable sequence of detection outcomes,
locked_language is None whenever detection_count < 3; once locked the count
is exactly 3 (so the lock fired at the vote that made the count reach the
quorum and no later vote is counted, i.e. the transition fires exactly once);
and the lock is in place immediately after any step whose successor state has
detection_count ≥ 3. -/
theorem C2_vote_quorum (s : RoutingState) (h : ReachableFrom autoInit s) :
    (s.detection_count < MIN_DETECTIONS_FOR_LOCK → s.locked_language = none) ∧
    (∀ l, s.locked_language = some l →
      s.detection_count = MIN_DETECTIONS_FOR_LOCK) ∧
    (∀ tte frames w,
      (routerStep tte s frames w).state.detection_count ≥ MIN_DETECTIONS_FOR_LOCK →
        (routerStep tte s frames w).state.locked_language ≠ none) := by
  have hinv := inv_reachable h
  refine ⟨?_, ?_, ?_⟩
  · intro hlt
    rcases hinv with ⟨hn, _, _⟩ | ⟨l, _, _, hcnt⟩
    · exact hn
    · omega
  · intro l hl
    rcases hinv with ⟨hn, _, _⟩ | ⟨l', _, _, hcnt⟩
    · rw [hn] at hl; exact absurd hl (by simp)
    · exact hcnt
  · intro tte frames w hge
    have hinv' := inv_step hinv tte frames w
    rcases hinv' with ⟨_, hlt', _⟩ | ⟨l', hsome', _, _⟩
    · omega
    · rw [hsome']; simp

/-- C2 witness: after two successful "hi" detections (a reachable state with
detection_count = 2 and no lock), the third successful detection makes the
successor state locked. -/
theorem C2_vote_quorum_witness :
    (routerStep true
      (routerStep true
        (routerStep true autoInit [⟨16000, 1, [1]⟩]
          ⟨HttpOutcome.ok (JsonField.jstr "hi"), HttpOutcome.failure, HttpOutcome.failure⟩).state
        [⟨16000, 1, [1]⟩]
        ⟨HttpOutcome.ok (JsonField.jstr "hi"), HttpOutcome.failure, HttpOutcome.failure⟩).state
      [⟨16000, 1, [1]⟩]
      ⟨HttpOutcome.ok (JsonField.jstr "hi"), HttpOutcome.failure, HttpOutcome.failure⟩).state.locked_language
      ≠ none :=
  (C2_vote_quorum _
    (ReachableFrom.step true [⟨16000, 1, [1]⟩]
      ⟨HttpOutcome.ok (JsonField.jstr "hi"), HttpOutcome.failure, HttpOutcome.failure⟩
      (ReachableFrom.step true [⟨16000, 1, [1]⟩]
        ⟨HttpOutcome.ok (JsonField.jstr "hi"), HttpOutcome.failure, HttpOutcome.failure⟩
        ReachableFrom.refl))).2.2 true [⟨16000, 1, [1]⟩]
    ⟨HttpOutcome.ok (JsonField.jstr "hi"), HttpOutcome.failure, HttpOutcome.failure⟩
    (by decide)

/-! ### Claim C3 -/

/-- C3: at the lock transition, whenever the highest regional vote count is at
least the highest general vote count and at least one regional vote exists,
_lock_language locks to a regional language with use_aibharath = true, and
that language is the first-seen (insertion-order) regional language carrying
the maximal regional count (FirstMaxKey); in particular the tally
{en: 3, hi: 3} with hi regional locks to hi. -/
theorem C3_regional_tie_break :
    (∀ counts : List (String × Nat),
      indianPart counts ≠ [] →
      maxVal (indianPart counts) ≥ maxVal (generalPart counts) →
      ∃ l, lockLanguage counts = some (l, true) ∧ FirstMaxKey (indianPart counts) l) ∧
    lockLanguage [("en", 3), ("hi", 3)] = some ("hi", true) := by
  constructor
  · intro counts hne hge
    rcases pyMaxByCount_isSome hne with ⟨r, hr⟩
    refine ⟨r.1, ?_, pyMaxByCount_firstMax hr⟩
    unfold lockLanguage
    rw [if_pos ⟨hge, hne⟩, hr]
    rfl
  · decide

/-- C3 witness: the tie-break theorem applied to the concrete tally
{en: 3, hi: 3} of the claim. -/
theorem C3_regional_tie_break_witness :
    ∃ l, lockLanguage [("en", 3), ("hi", 3)] = some (l, true) ∧
      FirstMaxKey (indianPart [("en", 3), ("hi", 3)]) l :=
  C3_regional_tie_break.1 [("en", 3), ("hi", 3)] (by decide) (by decide)

/-! ### Claim C4 -/

/-- C4: a locked session never leaves LOCKED.  The LOCKED state of the
per-utterance step relation is the dispatch guard `if state.locked_language:`
(Python truthiness, i.e. a non-empty language code); the first conjunct shows
that from any such state one Router invocation leaves the entire routing
state unchanged (lockedLanguage and useRegionalBackend included) and issues
no detection call; the second shows every lock reachable in auto mode is a
non-empty code, so auto-mode locks are permanent regardless of later audio.
(A non-empty fixed-language override satisfies the same guard at session
start.) -/
theorem C4_lock_permanent :
    (∀ (s : RoutingState) (l : String), s.locked_language = some l → l ≠ "" →
      ∀ (tte : Bool) (frames : List AudioFrame) (w : World),
        (routerStep tte s frames w).state = s ∧
        (routerStep tte s frames w).detectCalls = 0) ∧
    (∀ s : RoutingState, ReachableFrom autoInit s →
      ∀ l, s.locked_language = some l → l ≠ "") := by
  constructor
  · intro s l hsome hne tte frames w
    have htrue : pyTruthy s.locked_language = true := by
      rw [hsome]; simp [pyTruthy, hne]
    rw [routerStep_locked htrue]
    exact ⟨lockedDispatch_state tte s frames w, lockedDispatch_detectCalls tte s frames w⟩
  · intro s h l hsome
    rcases inv_reachable h with ⟨hn, _, _⟩ | ⟨l', hs', hne', _⟩
    · rw [hn] at hsome; exact absurd hsome (by simp)
    · rw [hs'] at hsome
      injection hsome with he
      rw [← he]
      exact hne'

/-- C4 witness: a session locked to "kn" processes an utterance whose audio
would be detected as "en"; the state is unchanged and no detection call is
issued. -/
theorem C4_lock_permanent_witness :
    (routerStep true (initState "kn") [⟨16000, 1, [1]⟩]
      ⟨HttpOutcome.ok (JsonField.jstr "en"), HttpOutcome.ok ⟨some "w"⟩,
        HttpOutcome.ok ⟨some "t", some "tr"⟩⟩).state = initState "kn" ∧
    (routerStep true (initState "kn") [⟨16000, 1, [1]⟩]
      ⟨HttpOutcome.ok (JsonField.jstr "en"), HttpOutcome.ok ⟨some "w"⟩,
        HttpOutcome.ok ⟨some "t", some "tr"⟩⟩).detectCalls = 0 :=
  C4_lock_permanent.1 (initState "kn") "kn" (by decide) (by decide) true
    [⟨16000, 1, [1]⟩]
    ⟨HttpOutcome.ok (JsonField.jstr "en"), HttpOutcome.ok ⟨some "w"⟩,
      HttpOutcome.ok ⟨some "t", some "tr"⟩⟩

/-! ### Claim C5 -/

theorem applyLock_detection_count (s : RoutingState) :
    (applyLock s).detection_count = s.detection_count := by
  unfold applyLock
  split <;> rfl

theorem applyLock_language_counts (s : RoutingState) :
    (applyLock s).language_counts = s.language_counts := by
  unfold applyLock
  split <;> rfl

theorem recordVote_detection_count (s : RoutingState) (l : String) :
    (recordVote s l).detection_count = s.detection_count + 1 := by
  unfold recordVote
  split
  · rw [applyLock_detection_count]
  · rfl

theorem recordVote_language_counts (s : RoutingState) (l : String) :
    (recordVote s l).language_counts = counterIncr s.language_counts l := by
  unfold recordVote
  split
  · rw [applyLock_language_counts]
  · rfl

/-- C5, counterexample.  A 200-status detection response whose JSON body has
no "language" member (JsonField.absent) is NOT treated as a detection
failure: `data.get("language", "en")` substitutes "en", the Router records a
vote for "en" and detection_count advances from 0 to 1, moving the session
toward quorum, contrary to the claim that such a response contributes no
vote. -/
theorem C5_counterexample :
    (routerStep true autoInit [⟨16000, 1, [1]⟩]
      ⟨HttpOutcome.ok JsonField.absent, HttpOutcome.ok ⟨some "w"⟩,
        HttpOutcome.ok ⟨some "t", none⟩⟩).state.detection_count = 1 ∧
    (routerStep true autoInit [⟨16000, 1, [1]⟩]
      ⟨HttpOutcome.ok JsonField.absent, HttpOutcome.ok ⟨some "w"⟩,
        HttpOutcome.ok ⟨some "t", none⟩⟩).state.language_counts = [("en", 1)] := by
  decide

/-- C5 (amended): a 200 response whose body is missing the "language" field
yields the default vote "en" — it increments detection_count and bumps the
"en" tally entry, advancing the session toward quorum; only a non-200
status, a transport error or timeout, an unparseable body, or an explicit
null language value contribute no vote and leave the state untouched. -/
theorem C5_missing_field_defaults_en (tte : Bool) (s : RoutingState)
    (frames : List AudioFrame) (w : World) (hun : s.locked_language = none)
    (hne : frames ≠ []) :
    (w.detectResponse = HttpOutcome.ok JsonField.absent →
      (routerStep tte s frames w).state.detection_count = s.detection_count + 1 ∧
      (routerStep tte s frames w).state.language_counts
        = counterIncr s.language_counts "en") ∧
    ((w.detectResponse = HttpOutcome.failure ∨
        w.detectResponse = HttpOutcome.ok JsonField.jnull) →
      (routerStep tte s frames w).state = s) := by
  have hfalse : pyTruthy s.locked_language = false := by rw [hun]; rfl
  have hde : frames.isEmpty = false := by
    cases frames with
    | nil => exact absurd rfl hne
    | cons a as => rfl
  constructor
  · intro hd
    have h₁ : (detectLanguage frames w.detectResponse).1 = some "en" := by
      unfold detectLanguage
      rw [hde, hd]
      rfl
    have h₂ : voteUpdate s (some "en") = recordVote s "en" := by
      show (if ("en" : String) ≠ "" then recordVote s "en" else s) = recordVote s "en"
      rw [if_pos (by decide)]
    rw [routerStep_state_unlocked hfalse, h₁, h₂]
    exact ⟨recordVote_detection_count s "en", recordVote_language_counts s "en"⟩
  · intro hd
    have h₁ : (detectLanguage frames w.detectResponse).1 = none := by
      unfold detectLanguage
      rcases hd with hd | hd <;> rw [hde, hd] <;> rfl
    rw [routerStep_state_unlocked hfalse, h₁]
    rfl

/-- C5 witness: the amended theorem applied to the empty-body 200 response
at the initial auto-mode state. -/
theorem C5_missing_field_defaults_en_witness :
    (routerStep true autoInit [⟨16000, 1, [1]⟩]
      ⟨HttpOutcome.ok JsonField.absent, HttpOutcome.failure,
        HttpOutcome.failure⟩).state.detection_count = autoInit.detection_count + 1 ∧
    (routerStep true autoInit [⟨16000, 1, [1]⟩]
      ⟨HttpOutcome.ok JsonField.absent, HttpOutcome.failure,
        HttpOutcome.failure⟩).state.language_counts
      = counterIncr autoInit.language_counts "en" :=
  (C5_missing_field_defaults_en true autoInit [⟨16000, 1, [1]⟩]
    ⟨HttpOutcome.ok JsonField.absent, HttpOutcome.failure, HttpOutcome.failure⟩
    (by decide) (by decide)).1 rfl

/-! ### Claim C6 -/

/-- C6, counterexample.  Unlocked utterance, detection fails, and the Whisper
(general) backend has a provider failure while the AIBharath (regional)
backend would have answered: the claim says the Router falls back to the
regional adapter when the general adapter fails; in fact the provider
failure is swallowed inside the Whisper adapter, the regional backend is
called zero times, and the empty transcript is returned. -/
theorem C6_counterexample :
    (routerStep true autoInit [⟨16000, 1, [1]⟩]
      ⟨HttpOutcome.failure, HttpOutcome.failure,
        HttpOutcome.ok ⟨some "regional transcript", none⟩⟩).whisperCalls = 1 ∧
    (routerStep true autoInit [⟨16000, 1, [1]⟩]
      ⟨HttpOutcome.failure, HttpOutcome.failure,
        HttpOutcome.ok ⟨some "regional transcript", none⟩⟩).aibharathCalls = 0 ∧
    (routerStep true autoInit [⟨16000, 1, [1]⟩]
      ⟨HttpOutcome.failure, HttpOutcome.failure,
        HttpOutcome.ok ⟨some "regional transcript", none⟩⟩).text = "" := by
  decide

/-- C6 (amended): on an unlocked utterance whose detection call fails the
Router records no vote and leaves the state untouched (detection_count
included), does not fail the turn, and routes the utterance to the general
(Whisper) adapter with exactly one general-backend call and zero
regional-backend calls; a provider failure of the general backend is
swallowed inside the general adapter (empty-text result) — it does not
trigger the regional fallback, which fires only for exceptions escaping the
general adapter. -/
theorem C6_detection_failure_routes_general (tte : Bool) (s : RoutingState)
    (frames : List AudioFrame) (w : World) (hun : s.locked_language = none)
    (hne : frames ≠ []) (hd : w.detectResponse = HttpOutcome.failure) :
    (routerStep tte s frames w).state = s ∧
    (routerStep tte s frames w).whisperCalls = 1 ∧
    (routerStep tte s frames w).aibharathCalls = 0 ∧
    (w.whisperResponse = HttpOutcome.failure → (routerStep tte s frames w).text = "") := by
  have hfalse : pyTruthy s.locked_language = false := by rw [hun]; rfl
  have hde : frames.isEmpty = false := by
    cases frames with
    | nil => exact absurd rfl hne
    | cons a as => rfl
  have h₁ : detectLanguage frames w.detectResponse = (none, 1) := by
    unfold detectLanguage
    rw [hde, hd]
    rfl
  have hc₁ : pyTruthy (voteUpdate s
      (detectLanguage frames w.detectResponse).1).locked_language = false := by
    rw [h₁]
    exact hfalse
  have hc₂ : liveIsIndian (detectLanguage frames w.detectResponse).1 = false := by
    rw [h₁]
    rfl
  have hstep : routerStep tte s frames w =
      ⟨s, (whisperRecognize frames w.whisperResponse).1, 1,
        (whisperRecognize frames w.whisperResponse).2, 0⟩ := by
    unfold routerStep
    rw [if_neg (by rw [hfalse]; exact Bool.false_ne_true)]
    rw [if_neg (by rw [hc₁]; exact Bool.false_ne_true)]
    rw [if_neg (by rw [hc₂]; exact Bool.false_ne_true)]
    rw [h₁]
    rfl
  rw [hstep]
  refine ⟨rfl, ?_, rfl, ?_⟩
  · show (whisperRecognize frames w.whisperResponse).2 = 1
    unfold whisperRecognize
    rw [hde]
    rfl
  · intro hw
    show (whisperRecognize frames w.whisperResponse).1 = ""
    rw [hw]
    exact whisperRecognize_text_failure frames

/-- C6 witness: the amended theorem applied to the initial auto-mode state
with a failing detection service and a failing general backend. -/
theorem C6_detection_failure_routes_general_witness :
    (routerStep true autoInit [⟨16000, 1, [1]⟩]
      ⟨HttpOutcome.failure, HttpOutcome.failure,
        HttpOutcome.ok ⟨some "t", none⟩⟩).state = autoInit ∧
    (routerStep true autoInit [⟨16000, 1, [1]⟩]
      ⟨HttpOutcome.failure, HttpOutcome.failure,
        HttpOutcome.ok ⟨some "t", none⟩⟩).whisperCalls = 1 ∧
    (routerStep true autoInit [⟨16000, 1, [1]⟩]
      ⟨HttpOutcome.failure, HttpOutcome.failure,
        HttpOutcome.ok ⟨some "t", none⟩⟩).aibharathCalls = 0 ∧
    ((HttpOutcome.failure : HttpOutcome WhisperJson) = HttpOutcome.failure →
      (routerStep true autoInit [⟨16000, 1, [1]⟩]
        ⟨HttpOutcome.failure, HttpOutcome.failure,
          HttpOutcome.ok ⟨some "t", none⟩⟩).text = "") :=
  C6_detection_failure_routes_general true autoInit [⟨16000, 1, [1]⟩]
    ⟨HttpOutcome.failure, HttpOutcome.failure, HttpOutcome.ok ⟨some "t", none⟩⟩
    (by decide) (by decide) rfl

/-! ### Claim C7 -/

/-- C7, counterexample.  A buffer consisting of one frame with ZERO samples
is not the empty-audio sentinel: `audio_chunks` receives one (empty) chunk,
`if not audio_chunks` does not fire, and the Router issues a detection call
and a Whisper backend call (with an empty WAV payload) — two network calls
where the claim requires zero. -/
theorem C7_counterexample :
    (routerStep true autoInit [⟨16000, 1, []⟩]
      ⟨HttpOutcome.failure, HttpOutcome.failure, HttpOutcome.failure⟩).detectCalls = 1 ∧
    (routerStep true autoInit [⟨16000, 1, []⟩]
      ⟨HttpOutcome.failure, HttpOutcome.failure, HttpOutcome.failure⟩).whisperCalls = 1 := by
  decide

/-- C7 (amended): an input of zero audio frames short-circuits everywhere:
in every session state the Router returns an empty-text result, leaves the
state unchanged, and issues zero network calls (no detection call and no
backend call).  Frames containing zero samples are NOT covered: they are not
the empty sentinel and do trigger network calls (see the counterexample). -/
theorem C7_no_frames_no_calls (tte : Bool) (s : RoutingState) (w : World) :
    routerStep tte s [] w = ⟨s, "", 0, 0, 0⟩ := by
  unfold routerStep
  split
  · unfold lockedDispatch
    split <;> rfl
  · rename_i h
    rw [if_neg (show ¬(pyTruthy (voteUpdate s
        (detectLanguage ([] : List AudioFrame) w.detectResponse).1).locked_language = true)
      from h)]
    rw [if_neg (show ¬(liveIsIndian
        (detectLanguage ([] : List AudioFrame) w.detectResponse).1 = true)
      from Bool.false_ne_true)]
    rfl

/-! ### Claim C8 -/

/-- Interleaved layout of a two-channel frame: the raw PCM byte stream holds
the two channels sample-alternating, exactly what `reshape(-1, 2)` undoes. -/
def interleave : List Int → List Int → List Int
  | a :: as, b :: bs => a :: b :: interleave as bs
  | _, _ => []

theorem int16TruncMean_comm (a b : Int) : int16TruncMean a b = int16TruncMean b a := by
  unfold int16TruncMean
  rw [Int.add_comm]

theorem pairMean_interleave (L R : List Int) (h : L.length = R.length) :
    pairMean (interleave L R) = List.zipWith int16TruncMean L R := by
  induction L generalizing R with
  | nil =>
    cases R with
    | nil => rfl
    | cons b bs => simp at h
  | cons a as ih =>
    cases R with
    | nil => simp at h
    | cons b bs =>
      show int16TruncMean a b :: pairMean (interleave as bs) = _
      rw [ih bs (by simpa using h)]
      rfl

theorem zipWith_int16TruncMean_comm (L R : List Int) :
    List.zipWith int16TruncMean L R = List.zipWith int16TruncMean R L := by
  induction L generalizing R with
  | nil => cases R <;> rfl
  | cons a as ih =>
    cases R with
    | nil => rfl
    | cons b bs =>
      show int16TruncMean a b :: _ = int16TruncMean b a :: _
      rw [int16TruncMean_comm, ih bs]

/-- C8, counterexample.  A three-channel frame (one sample position per
channel) is not downmixed at all — the code handles only
`frame.num_channels == 2` — so the output is the raw interleaved samples,
not the arithmetic mean [1], and permuting the channels changes the
normalized output. -/
theorem C8_counterexample :
    downmixFrame ⟨16000, 3, [0, 0, 3]⟩ = [0, 0, 3] ∧
    downmixFrame ⟨16000, 3, [3, 0, 0]⟩ ≠ downmixFrame ⟨16000, 3, [0, 0, 3]⟩ := by
  decide

/-- C8 (amended): exactly TWO-channel frames are downmixed to mono, each
output sample being the arithmetic mean of the two channel samples truncated
toward zero into the 16-bit integer representation (int16TruncMean), and
this reduction is channel-order-independent: swapping the two channels of a
frame leaves the normalized output unchanged.  Frames with three or more
channels are not downmixed (see the counterexample). -/
theorem C8_stereo_downmix_mean_comm (sr : Nat) (L R : List Int)
    (h : L.length = R.length) :
    downmixFrame ⟨sr, 2, interleave L R⟩ = List.zipWith int16TruncMean L R ∧
    downmixFrame ⟨sr, 2, interleave R L⟩ = downmixFrame ⟨sr, 2, interleave L R⟩ := by
  have h₁ : downmixFrame ⟨sr, 2, interleave L R⟩ = pairMean (interleave L R) := by
    unfold downmixFrame
    rw [if_pos rfl]
  have h₂ : downmixFrame ⟨sr, 2, interleave R L⟩ = pairMean (interleave R L) := by
    unfold downmixFrame
    rw [if_pos rfl]
  refine ⟨?_, ?_⟩
  · rw [h₁, pairMean_interleave L R h]
  · rw [h₁, h₂, pairMean_interleave L R h, pairMean_interleave R L h.symm,
      zipWith_int16TruncMean_comm R L]

/-- C8 witness: the amended theorem applied to the one-sample stereo frame
with channels [1] and [2] (mean 1.5 truncates to 1). -/
theorem C8_stereo_downmix_mean_comm_witness :
    downmixFrame ⟨16000, 2, interleave [1] [2]⟩ = List.zipWith int16TruncMean [1] [2] ∧
    downmixFrame ⟨16000, 2, interleave [2] [1]⟩ = downmixFrame ⟨16000, 2, interleave [1] [2]⟩ :=
  C8_stereo_downmix_mean_comm 16000 [1] [2] rfl

/-! ### Claim C9 -/

/-- C9, counterexample.  The override language_mode = "" is "other than
auto", so the claim applies: the constructor does write
locked_language = "" — but the dispatch guard `if state.locked_language:`
treats the empty string as falsy, so the very first utterance of the session
issues a detection call, contradicting "no detection call is ever issued".
(After three truthy votes such a session would even re-lock, overwriting the
configured language.) -/
theorem C9_counterexample :
    (initState "").locked_language = some "" ∧
    (routerStep true (initState "") [⟨16000, 1, [1]⟩]
      ⟨HttpOutcome.ok (JsonField.jstr "en"), HttpOutcome.ok ⟨some "w"⟩,
        HttpOutcome.ok ⟨some "t", none⟩⟩).detectCalls = 1 := by
  decide

/-- C9 (amended): for every session created with a NON-EMPTY fixed-language
override (language_mode non-empty and other than "auto"), the session starts
already locked: locked_language equals the configured language,
use_aibharath holds exactly when that language is in the curated regional
set, and every state reachable in the session equals the initial one, with
no detection call ever issued for any utterance. -/
theorem C9_fixed_mode_locks_immediately (mode : String) (hauto : mode ≠ "auto")
    (hne : mode ≠ "") :
    (initState mode).locked_language = some mode ∧
    ((initState mode).use_aibharath = true ↔ mode ∈ INDIAN_LANGUAGES) ∧
    (∀ s, ReachableFrom (initState mode) s →
      s = initState mode ∧
      ∀ (tte : Bool) (frames : List AudioFrame) (w : World),
        (routerStep tte s frames w).detectCalls = 0) := by
  have hlock : (initState mode).locked_language = some mode := by
    unfold initState
    rw [if_pos hauto]
  have htrue : pyTruthy (initState mode).locked_language = true := by
    rw [hlock]
    simp [pyTruthy, hne]
  have hfix : ∀ s, ReachableFrom (initState mode) s → s = initState mode := by
    intro s h
    induction h with
    | refl => rfl
    | step tte frames w hr ih =>
      rw [ih, routerStep_locked htrue tte frames w, lockedDispatch_state]
  refine ⟨hlock, ?_, ?_⟩
  · unfold initState
    rw [if_pos hauto]
    simp
  · intro s h
    refine ⟨hfix s h, ?_⟩
    intro tte frames w
    rw [hfix s h, routerStep_locked htrue tte frames w, lockedDispatch_detectCalls]

/-- C9 witness: the amended theorem applied to the fixed mode "kn". -/
theorem C9_fixed_mode_locks_immediately_witness :
    (initState "kn").locked_language = some "kn" ∧
    ((initState "kn").use_aibharath = true ↔ "kn" ∈ INDIAN_LANGUAGES) ∧
    (∀ s, ReachableFrom (initState "kn") s →
      s = initState "kn" ∧
      ∀ (tte : Bool) (frames : List AudioFrame) (w : World),
        (routerStep tte s frames w).detectCalls = 0) :=
  C9_fixed_mode_locks_immediately "kn" (by decide) (by decide)

/-! ### Claim C10 -/

theorem abInit_language_supported (base l dec : String) (tte : Bool) :
    (abInit base l dec tte).language ∈ SUPPORTED_LANGUAGES := by
  show (if l ∈ SUPPORTED_LANGUAGES then l else "hi") ∈ SUPPORTED_LANGUAGES
  split
  · rename_i h
    exact h
  · decide

theorem abApplyLanguage_supported (o : ABSTTOptions) (language : Option String)
    (h : o.language ∈ SUPPORTED_LANGUAGES) :
    (abApplyLanguage o language).language ∈ SUPPORTED_LANGUAGES := by
  cases language with
  | none => exact h
  | some l =>
    show (if l ≠ "" ∧ l ∈ SUPPORTED_LANGUAGES
        then { o with language := l } else o).language ∈ SUPPORTED_LANGUAGES
    by_cases hc : l ≠ "" ∧ l ∈ SUPPORTED_LANGUAGES
    · rw [if_pos hc]; exact hc.2
    · rw [if_neg hc]; exact h

theorem abApplyTte_language (o : ABSTTOptions) (tte : Option Bool) :
    (abApplyTte o tte).language = o.language := by
  cases tte <;> rfl

theorem abUpdateOptions_language_supported (o : ABSTTOptions) (language : Option String)
    (tte : Option Bool) (h : o.language ∈ SUPPORTED_LANGUAGES) :
    (abUpdateOptions o language tte).language ∈ SUPPORTED_LANGUAGES := by
  unfold abUpdateOptions
  rw [abApplyTte_language]
  exact abApplyLanguage_supported o language h

theorem foldl_abUpdateOptions_supported (updates : List (Option String × Option Bool))
    (o : ABSTTOptions) (h : o.language ∈ SUPPORTED_LANGUAGES) :
    (updates.foldl (fun o u => abUpdateOptions o u.1 u.2) o).language
      ∈ SUPPORTED_LANGUAGES := by
  induction updates generalizing o with
  | nil => exact h
  | cons u us ih =>
    exact ih (abUpdateOptions o u.1 u.2) (abUpdateOptions_language_supported o u.1 u.2 h)

/-- C10: the AIBharath adapter's configured language is always a member of
SUPPORTED_LANGUAGES: the constructor replaces any unsupported language with
"hi", and update_options silently ignores any None, empty or unsupported
language argument, so after any construction and any sequence of
update_options calls the configured language is supported — and the language
field sent with a /transcribe request (which is the configured language
whenever the per-call override is NOT_GIVEN, as at every call site in this
repository) is a supported code. -/
theorem C10_ab_language_always_supported (base l dec : String) (tte : Bool)
    (updates : List (Option String × Option Bool)) :
    (updates.foldl (fun o u => abUpdateOptions o u.1 u.2) (abInit base l dec tte)).language
      ∈ SUPPORTED_LANGUAGES ∧
    abRequestLanguage
        (updates.foldl (fun o u => abUpdateOptions o u.1 u.2) (abInit base l dec tte)) none
      = (updates.foldl (fun o u => abUpdateOptions o u.1 u.2) (abInit base l dec tte)).language :=
  ⟨foldl_abUpdateOptions_supported updates (abInit base l dec tte)
      (abInit_language_supported base l dec tte),
    rfl⟩
